import Mathlib

/-!
Verification of the TrueNAS Home Assistant sensor platform
(`custom_components/truenas/sensor.py`) against its specification.

Python values are embedded as the inductive `Value`; dictionaries are
association lists with first-match lookup (Python dicts have unique keys,
so first-match lookup agrees with Python semantics).  Each action method
of the sensor classes is embedded as a function from the sensor's cached
record (`self._data`) and the remote API (a function from method name and
argument value to response value) to an `Outcome`: the ordered list of
remote calls issued, the log events emitted, and the exception raised, if
any.
-/

/-- Embedding of a Python value: `None`, `str`, `int`, `bool`, `list`, `dict`. -/
inductive Value where
  | vnone : Value
  | vstr : String → Value
  | vint : Int → Value
  | vbool : Bool → Value
  | vlist : List Value → Value
  | vdict : List (String × Value) → Value


/-- One remote procedure call: `api.query(method, args)`. -/
structure RemoteCall where
  method : String
  args : Value


/-- A log event emitted through the module logger `_LOGGER`. -/
inductive LogEvent where
  | logError (msg : String) (args : List Value)
  | logWarning (msg : String) (args : List Value)


/-- The observable trace of one action invocation: remote calls in issue
order, and log events in emit order. -/
structure Trace where
  calls : List RemoteCall
  logs : List LogEvent


/-- Result of running an action: the trace produced, plus the exception
(`some msg`) if the Python code would raise one, `none` otherwise. -/
structure Outcome where
  trace : Trace
  exc : Option String


/-- Python `d[k]` on a dict: the value, or a `KeyError` when absent. -/
def pyGetItem (d : List (String × Value)) (k : String) : Except String Value :=
  match d.lookup k with
  | some v => Except.ok v
  | none => Except.error ("KeyError: " ++ k)

/-- Python `d.get(k)` on a dict: the value, or `None` when absent. -/
def pyGet (d : List (String × Value)) (k : String) : Value :=
  (d.lookup k).getD Value.vnone

mutual
/-- Python `repr` of a value (strings are quoted). -/
def pyRepr : Value → String
  | Value.vnone => "None"
  | Value.vstr s => "\x27" ++ s ++ "\x27"
  | Value.vint n => toString n
  | Value.vbool b => if b then "True" else "False"
  | Value.vlist xs => "[" ++ pyReprList xs ++ "]"
  | Value.vdict kvs => "\x7b" ++ pyReprDict kvs ++ "\x7d"

/-- Python `repr` of list elements, comma-separated. -/
def pyReprList : List Value → String
  | [] => ""
  | [x] => pyRepr x
  | x :: xs => pyRepr x ++ ", " ++ pyReprList xs

/-- Python `repr` of dict items, comma-separated. -/
def pyReprDict : List (String × Value) → String
  | [] => ""
  | [(k, v)] => "\x27" ++ k ++ "\x27: " ++ pyRepr v
  | (k, v) :: kvs => "\x27" ++ k ++ "\x27: " ++ pyRepr v ++ ", " ++ pyReprDict kvs
end

/-- Python `str` of a value, as used by an f-string `f"{x}"`:
a string is rendered as itself, every other value via `repr`. -/
def pyStr : Value → String
  | Value.vstr s => s
  | v => pyRepr v

/-- Source `TrueNASSensor.native_value`:
`return self._data[self.entity_description.data_attribute]`. -/
def native_value (data : List (String × Value)) (data_attribute : String) :
    Except String Value :=
  pyGetItem data data_attribute

/-- Python `u.startswith(p)`: `p` is a character-wise prefix of `u`. -/
def pyStartswith (u p : String) : Bool :=
  p.data.isPrefixOf u.data

/-- Python `u[n:]`: drop the first `n` characters. -/
def pyDrop (u : String) (n : Nat) : String :=
  String.mk (u.data.drop n)

/-- Source `TrueNASSensor.native_unit_of_measurement`: if the configured unit
string is truthy and starts with `"data__"`, look the remainder up in the
record and return its value when present; otherwise return the configured
string; with no (or a falsy, i.e. empty) configured unit, return `None`. -/
def native_unit_of_measurement (data : List (String × Value))
    (unit : Option String) : Option Value :=
  match unit with
  | some u =>
    if u = "" then none
    else if pyStartswith u "data__" then
      match data.lookup (pyDrop u 6) with
      | some v => some v
      | none => some (Value.vstr u)
    else some (Value.vstr u)
  | none => none

/-- A Python `datetime` instant (local clock), to microsecond precision. -/
structure PyDateTime where
  year : Nat
  month : Nat
  day : Nat
  hour : Nat
  minute : Nat
  second : Nat
  microsecond : Nat

/-- Zero-pad the decimal rendering of `n` to width `w`. -/
def padNum (w : Nat) (n : Nat) : String :=
  let s := toString n
  String.mk (List.replicate (w - s.length) (Char.ofNat 48)) ++ s

/-- Python `datetime.isoformat(sep, timespec="microseconds")`:
`YYYY-MM-DD<sep>HH:MM:SS.ffffff`. -/
def pyIsoformat (dt : PyDateTime) (sep : String) : String :=
  padNum 4 dt.year ++ "-" ++ padNum 2 dt.month ++ "-" ++ padNum 2 dt.day ++ sep ++
  padNum 2 dt.hour ++ ":" ++ padNum 2 dt.minute ++ ":" ++ padNum 2 dt.second ++
  "." ++ padNum 6 dt.microsecond

/-- The fixed reason argument of `TrueNASUptimeSensor.restart` and
`TrueNASUptimeSensor.stop`: `["Home Assistant Integration"]`. -/
def reasonArgs : Value :=
  Value.vlist [Value.vstr "Home Assistant Integration"]

/-- Source `TrueNASUptimeSensor.restart`: one `system.reboot` call through the
executor; the response is discarded. -/
def uptimeRestart (api : String → Value → Value) : Outcome :=
  let _ := api "system.reboot" reasonArgs
  ⟨⟨[⟨"system.reboot", reasonArgs⟩], []⟩, none⟩

/-- Source `TrueNASUptimeSensor.stop`: one `system.shutdown` call through the
executor; the response is discarded. -/
def uptimeStop (api : String → Value → Value) : Outcome :=
  let _ := api "system.shutdown" reasonArgs
  ⟨⟨[⟨"system.shutdown", reasonArgs⟩], []⟩, none⟩

/-- Source test `isinstance(result, dict) and "error" in result`. -/
def hasErrorKey : Value → Bool
  | Value.vdict d => (d.lookup "error").isSome
  | _ => false

/-- Source `TrueNASDatasetSensor.snapshot`: build the payload
`{"dataset": f"{self._data['name']}", "name": f"custom-{ts}"}` with
`ts = datetime.now().isoformat(sep="_", timespec="microseconds")`, issue
`pool.snapshot.create`, and issue `zfs.snapshot.create` with the same
payload when (and only when) the first response is a dict containing an
`"error"` key; the second response is discarded. -/
def datasetSnapshot (data : List (String × Value)) (now : PyDateTime)
    (api : String → Value → Value) : Outcome :=
  let ts := pyIsoformat now "_"
  match data.lookup "name" with
  | none => ⟨⟨[], []⟩, some "KeyError: name"⟩
  | some nameVal =>
    let payload := Value.vdict
      [("dataset", Value.vstr (pyStr nameVal)),
       ("name", Value.vstr ("custom-" ++ ts))]
    let result := api "pool.snapshot.create" payload
    let pcall : RemoteCall := ⟨"pool.snapshot.create", payload⟩
    if hasErrorKey result then
      let _ := api "zfs.snapshot.create" payload
      ⟨⟨[pcall, ⟨"zfs.snapshot.create", payload⟩], []⟩, none⟩
    else
      ⟨⟨[pcall], []⟩, none⟩

/-- The argument of the fresh `cloudsync.query` lookup:
`[[["id", "=", self._data["id"]]]]`. -/
def cloudsyncQueryArgs (jid : Value) : Value :=
  Value.vlist [Value.vlist [Value.vlist [Value.vstr "id", Value.vstr "=", jid]]]

/-- The `cloudsync.query` remote call issued by `start` and `stop`. -/
def cloudsyncQueryCall (jid : Value) : RemoteCall :=
  ⟨"cloudsync.query", cloudsyncQueryArgs jid⟩

/-- Source `tmp_job = jobs[0] if isinstance(jobs, list) and jobs else None`. -/
def firstJob : Value → Option Value
  | Value.vlist (x :: _) => some x
  | _ => none

/-- Source `state = job_state.get("state") if isinstance(job_state, dict) else None`. -/
def stateOf (job_state : Value) : Value :=
  match job_state with
  | Value.vdict jd => pyGet jd "state"
  | _ => Value.vnone

/-- Source test `state in ["WAITING", "RUNNING"]`. -/
def isActiveState (state : Value) : Bool :=
  match state with
  | Value.vstr s => s = "WAITING" || s = "RUNNING"
  | _ => false

/-- The log-and-return branch shared by `start` and `stop` when the looked-up
job record is missing or malformed:
`_LOGGER.error("Clousync job %s (%s) invalid", self._data["description"], self._data["id"])`
followed by `return`.  Accessing `self._data["description"]` raises a
`KeyError` when the field is absent. -/
def cloudsyncInvalid (data : List (String × Value)) (jid : Value)
    (qcall : RemoteCall) : Outcome :=
  match data.lookup "description" with
  | none => ⟨⟨[qcall], []⟩, some "KeyError: description"⟩
  | some desc =>
    ⟨⟨[qcall], [LogEvent.logError "Clousync job %s (%s) invalid" [desc, jid]]⟩, none⟩

/-- The warning-and-return branch of `start`/`stop` (job already running /
not running). -/
def cloudsyncWarn (data : List (String × Value)) (jid : Value)
    (qcall : RemoteCall) (msg : String) : Outcome :=
  match data.lookup "description" with
  | none => ⟨⟨[qcall], []⟩, some "KeyError: description"⟩
  | some desc =>
    ⟨⟨[qcall], [LogEvent.logWarning msg [desc, jid]]⟩, none⟩

/-- Source `TrueNASClousyncSensor.start`: fresh `cloudsync.query` lookup filtered by
the sensor's job id; log an error and return on a missing or malformed
record; log a warning and return when the embedded job state is `WAITING`
or `RUNNING`; otherwise issue `cloudsync.sync` with `[id]`. -/
def clousyncStart (data : List (String × Value))
    (api : String → Value → Value) : Outcome :=
  match data.lookup "id" with
  | none => ⟨⟨[], []⟩, some "KeyError: id"⟩
  | some jid =>
    let jobs := api "cloudsync.query" (cloudsyncQueryArgs jid)
    let qcall := cloudsyncQueryCall jid
    match firstJob jobs with
    | some (Value.vdict d) =>
      match d.lookup "job" with
      | none => cloudsyncInvalid data jid qcall
      | some job_state =>
        if isActiveState (stateOf job_state) then
          cloudsyncWarn data jid qcall "Clousync job %s (%s) is already running"
        else
          ⟨⟨[qcall, ⟨"cloudsync.sync", Value.vlist [jid]⟩], []⟩, none⟩
    | _ => cloudsyncInvalid data jid qcall

/-- Source `TrueNASClousyncSensor.stop`: identical lookup and validation to
`start`; log a warning and return when the embedded job state is *not*
`WAITING`/`RUNNING`; otherwise issue `cloudsync.abort` with `[id]`. -/
def clousyncStop (data : List (String × Value))
    (api : String → Value → Value) : Outcome :=
  match data.lookup "id" with
  | none => ⟨⟨[], []⟩, some "KeyError: id"⟩
  | some jid =>
    let jobs := api "cloudsync.query" (cloudsyncQueryArgs jid)
    let qcall := cloudsyncQueryCall jid
    match firstJob jobs with
    | some (Value.vdict d) =>
      match d.lookup "job" with
      | none => cloudsyncInvalid data jid qcall
      | some job_state =>
        if isActiveState (stateOf job_state) then
          ⟨⟨[qcall, ⟨"cloudsync.abort", Value.vlist [jid]⟩], []⟩, none⟩
        else
          cloudsyncWarn data jid qcall "Clousync job %s (%s) is not running"
    | _ => cloudsyncInvalid data jid qcall

/-- The validation both `start` and `stop` perform on the lookup response:
the response has a first element that is a dict containing a `"job"` key
(the negation of `not isinstance(tmp_job, dict) or "job" not in tmp_job`). -/
def validJobResponse (jobs : Value) : Bool :=
  match firstJob jobs with
  | some (Value.vdict d) => (d.lookup "job").isSome
  | _ => false

/-- Whether the lookup response has a first element that is a dict
(regardless of a `"job"` key). -/
def firstIsDict (jobs : Value) : Bool :=
  match firstJob jobs with
  | some (Value.vdict _) => true
  | _ => false

/-- C9: the uptime sensor's `restart` issues exactly one remote call, to
`system.reboot` with the single fixed reason argument
`["Home Assistant Integration"]`, and its `stop` issues exactly one remote
call, to `system.shutdown` with the same fixed argument; neither logs,
raises, nor depends on the call's result (the outcome is the same for
every `api`). -/
theorem uptime_actions_single_fixed_call (api : String → Value → Value) :
    uptimeRestart api = ⟨⟨[⟨"system.reboot", reasonArgs⟩], []⟩, none⟩ ∧
    uptimeStop api = ⟨⟨[⟨"system.shutdown", reasonArgs⟩], []⟩, none⟩ :=
  ⟨rfl, rfl⟩

/-- C8: for every cached record containing the configured `data_attribute`
field `F`, `native_value` returns `record[F]` exactly; when `F` is absent
the read raises a `KeyError` (modelled as `Except.error`), unhandled
locally. -/
theorem native_value_verbatim_or_keyerror (data : List (String × Value))
    (F : String) :
    (∀ v, data.lookup F = some v → native_value data F = Except.ok v) ∧
    (data.lookup F = none →
      native_value data F = Except.error ("KeyError: " ++ F)) := by
  constructor
  · intro v hv
    simp [native_value, pyGetItem, hv]
  · intro hv
    simp [native_value, pyGetItem, hv]

/-- C8 witness: on the record `[("free", 7)]`, `native_value` with attribute
`"free"` yields `Except.ok 7`, and with attribute `"used"` (absent) yields
the `KeyError`. -/
theorem native_value_verbatim_or_keyerror_witness :
    native_value [("free", Value.vint 7)] "free" = Except.ok (Value.vint 7) ∧
    native_value [("free", Value.vint 7)] "used" =
      Except.error ("KeyError: " ++ "used") :=
  ⟨(native_value_verbatim_or_keyerror [("free", Value.vint 7)] "free").1
      (Value.vint 7) rfl,
   (native_value_verbatim_or_keyerror [("free", Value.vint 7)] "used").2 rfl⟩

/-- C7: with a (truthy) configured unit string `u`: when `u` starts with the
dynamic-lookup prefix `"data__"`, the remainder is used as a field name and
the reported unit is that field's value when present, else the original
prefixed string unchanged; without the prefix `u` is returned as-is; with no
configured unit the reported unit is none. -/
theorem unit_of_measurement_dynamic_lookup (data : List (String × Value))
    (u : String) (hu : u ≠ "") :
    (∀ v, pyStartswith u "data__" = true → data.lookup (pyDrop u 6) = some v →
      native_unit_of_measurement data (some u) = some v) ∧
    (pyStartswith u "data__" = true → data.lookup (pyDrop u 6) = none →
      native_unit_of_measurement data (some u) = some (Value.vstr u)) ∧
    (pyStartswith u "data__" = false →
      native_unit_of_measurement data (some u) = some (Value.vstr u)) ∧
    native_unit_of_measurement data none = none := by
  refine ⟨?_, ?_, ?_, rfl⟩
  · intro v hpre hv
    simp [native_unit_of_measurement, hu, hpre, hv]
  · intro hpre hv
    simp [native_unit_of_measurement, hu, hpre, hv]
  · intro hpre
    simp [native_unit_of_measurement, hu, hpre]

/-- C7 witness: with unit string `"data__unit"` and record
`[("unit", "GiB")]` the reported unit is `"GiB"`; on the empty record it is
the prefixed string unchanged; the plain unit string `"MiB"` is returned
as-is; no configured unit reports none. -/
theorem unit_of_measurement_dynamic_lookup_witness :
    native_unit_of_measurement [("unit", Value.vstr "GiB")]
      (some "data__unit") = some (Value.vstr "GiB") ∧
    native_unit_of_measurement [] (some "data__unit") =
      some (Value.vstr "data__unit") ∧
    native_unit_of_measurement [] (some "MiB") = some (Value.vstr "MiB") ∧
    native_unit_of_measurement [] none = none :=
  ⟨(unit_of_measurement_dynamic_lookup [("unit", Value.vstr "GiB")]
      "data__unit" (by decide)).1 (Value.vstr "GiB") (by decide) rfl,
   (unit_of_measurement_dynamic_lookup [] "data__unit" (by decide)).2.1
      (by decide) rfl,
   (unit_of_measurement_dynamic_lookup [] "MiB" (by decide)).2.2.1 (by decide),
   (unit_of_measurement_dynamic_lookup [] "MiB" (by decide)).2.2.2⟩

/-- The payload `{"dataset": <dataset>, "name": "custom-" + ts}` that
`snapshot` sends, for a record whose `name` field is the string `dataset`. -/
def snapshotPayload (dataset : String) (now : PyDateTime) : Value :=
  Value.vdict
    [("dataset", Value.vstr dataset),
     ("name", Value.vstr ("custom-" ++ pyIsoformat now "_"))]

/-- Sanity check of the timestamp rendering: Python
`datetime(2024, 1, 2, 3, 4, 5, 6).isoformat(sep="_", timespec="microseconds")`
is `2024-01-02_03:04:05.000006`. -/
theorem pyIsoformat_example :
    pyIsoformat ⟨2024, 1, 2, 3, 4, 5, 6⟩ "_" = "2024-01-02_03:04:05.000006" := by
  rfl

/-- C3: for every dataset record whose `name` field is the string `s` and
every clock instant, `snapshot` builds the name `"custom-"` followed by the
local timestamp at microsecond precision with `"_"` as separator, issues
`pool.snapshot.create` first with payload `{dataset: s, name: ...}`, and
issues `zfs.snapshot.create` with the identical payload if and only if the
primary result is a dict containing an `"error"` key; the outcome depends
only on the primary response (the secondary result is never inspected). -/
theorem datasetSnapshot_primary_then_fallback (data : List (String × Value))
    (now : PyDateTime) (api : String → Value → Value) (s : String)
    (hname : data.lookup "name" = some (Value.vstr s)) :
    (hasErrorKey (api "pool.snapshot.create" (snapshotPayload s now)) = true →
      datasetSnapshot data now api =
        ⟨⟨[⟨"pool.snapshot.create", snapshotPayload s now⟩,
           ⟨"zfs.snapshot.create", snapshotPayload s now⟩], []⟩, none⟩) ∧
    (hasErrorKey (api "pool.snapshot.create" (snapshotPayload s now)) = false →
      datasetSnapshot data now api =
        ⟨⟨[⟨"pool.snapshot.create", snapshotPayload s now⟩], []⟩, none⟩) ∧
    (∀ api2 : String → Value → Value,
      api2 "pool.snapshot.create" (snapshotPayload s now) =
        api "pool.snapshot.create" (snapshotPayload s now) →
      datasetSnapshot data now api2 = datasetSnapshot data now api) := by
  have hpay : ∀ b : String → Value → Value, datasetSnapshot data now b =
      if hasErrorKey (b "pool.snapshot.create" (snapshotPayload s now)) then
        ⟨⟨[⟨"pool.snapshot.create", snapshotPayload s now⟩,
           ⟨"zfs.snapshot.create", snapshotPayload s now⟩], []⟩, none⟩
      else ⟨⟨[⟨"pool.snapshot.create", snapshotPayload s now⟩], []⟩, none⟩ := by
    intro b
    simp only [datasetSnapshot, hname, pyStr, snapshotPayload]
  refine ⟨?_, ?_, ?_⟩
  · intro h
    rw [hpay api, h]
    rfl
  · intro h
    rw [hpay api, h]
    rfl
  · intro api2 h2
    rw [hpay api2, hpay api, h2]

/-- Example dataset record. -/
def exDataDS : List (String × Value) := [("name", Value.vstr "tank/data")]

/-- Example clock instant. -/
def exNow : PyDateTime := ⟨2024, 1, 2, 3, 4, 5, 6⟩

/-- Example API whose `pool.snapshot.create` response carries an in-band
`"error"` key. -/
def exApiSnapErr : String → Value → Value := fun m _ =>
  if m = "pool.snapshot.create" then Value.vdict [("error", Value.vstr "fail")]
  else Value.vnone

/-- C3 witness: on the record `{"name": "tank/data"}` with the fixed clock
instant, the primary response carries `"error"`, so both creates are issued
with the identical payload. -/
theorem datasetSnapshot_primary_then_fallback_witness :
    datasetSnapshot exDataDS exNow exApiSnapErr =
      ⟨⟨[⟨"pool.snapshot.create", snapshotPayload "tank/data" exNow⟩,
         ⟨"zfs.snapshot.create", snapshotPayload "tank/data" exNow⟩], []⟩,
       none⟩ :=
  (datasetSnapshot_primary_then_fallback exDataDS exNow exApiSnapErr
    "tank/data" rfl).1 rfl

/-- C1: when the fresh `cloudsync.query` lookup returns a well-formed job
record (first element a dict with a `"job"` key): if the embedded job state
is `WAITING` or `RUNNING`, `start` logs a warning and returns without any
mutating call; for every other state, `start` issues exactly one
`cloudsync.sync` call with the job identifier (and logs nothing). -/
theorem clousyncStart_guard_or_sync (data : List (String × Value))
    (api : String → Value → Value) (jid desc job_state : Value)
    (d : List (String × Value)) (rest : List Value)
    (hid : data.lookup "id" = some jid)
    (hdesc : data.lookup "description" = some desc)
    (hq : api "cloudsync.query" (cloudsyncQueryArgs jid) =
      Value.vlist (Value.vdict d :: rest))
    (hjob : d.lookup "job" = some job_state) :
    (isActiveState (stateOf job_state) = true →
      clousyncStart data api =
        ⟨⟨[cloudsyncQueryCall jid],
          [LogEvent.logWarning "Clousync job %s (%s) is already running"
            [desc, jid]]⟩, none⟩) ∧
    (isActiveState (stateOf job_state) = false →
      clousyncStart data api =
        ⟨⟨[cloudsyncQueryCall jid,
           ⟨"cloudsync.sync", Value.vlist [jid]⟩], []⟩, none⟩) := by
  constructor
  · intro hstate
    simp only [clousyncStart, hid, hq, firstJob, hjob, hstate, if_true,
      cloudsyncWarn, hdesc]
  · intro hstate
    simp only [clousyncStart, hid, hq, firstJob, hjob, hstate,
      Bool.false_eq_true, if_false]

/-- Example cloud-sync sensor record. -/
def exDataCS : List (String × Value) :=
  [("id", Value.vint 1), ("description", Value.vstr "backup job")]

/-- Example API: the queried job is `RUNNING`. -/
def exApiRunning : String → Value → Value := fun m _ =>
  if m = "cloudsync.query" then
    Value.vlist [Value.vdict [("job", Value.vdict [("state", Value.vstr "RUNNING")])]]
  else Value.vnone

/-- Example API: the queried job has the terminal state `SUCCESS`. -/
def exApiIdle : String → Value → Value := fun m _ =>
  if m = "cloudsync.query" then
    Value.vlist [Value.vdict [("job", Value.vdict [("state", Value.vstr "SUCCESS")])]]
  else Value.vnone

/-- C1 witness: with the job `RUNNING`, `start` only queries and warns;
with the job in state `SUCCESS`, `start` issues exactly the query followed
by one `cloudsync.sync [1]`. -/
theorem clousyncStart_guard_or_sync_witness :
    clousyncStart exDataCS exApiRunning =
      ⟨⟨[cloudsyncQueryCall (Value.vint 1)],
        [LogEvent.logWarning "Clousync job %s (%s) is already running"
          [Value.vstr "backup job", Value.vint 1]]⟩, none⟩ ∧
    clousyncStart exDataCS exApiIdle =
      ⟨⟨[cloudsyncQueryCall (Value.vint 1),
         ⟨"cloudsync.sync", Value.vlist [Value.vint 1]⟩], []⟩, none⟩ :=
  ⟨(clousyncStart_guard_or_sync exDataCS exApiRunning (Value.vint 1)
      (Value.vstr "backup job")
      (Value.vdict [("state", Value.vstr "RUNNING")])
      [("job", Value.vdict [("state", Value.vstr "RUNNING")])] []
      rfl rfl rfl rfl).1 rfl,
   (clousyncStart_guard_or_sync exDataCS exApiIdle (Value.vint 1)
      (Value.vstr "backup job")
      (Value.vdict [("state", Value.vstr "SUCCESS")])
      [("job", Value.vdict [("state", Value.vstr "SUCCESS")])] []
      rfl rfl rfl rfl).2 rfl⟩

/-- The invalid-job branch issues no call beyond the lookup, whether or not
the `description` access raises. -/
theorem cloudsyncInvalid_calls (data : List (String × Value)) (jid : Value)
    (qcall : RemoteCall) :
    (cloudsyncInvalid data jid qcall).trace.calls = [qcall] := by
  unfold cloudsyncInvalid
  cases data.lookup "description" <;> rfl

/-- The warning branch issues no call beyond the lookup, whether or not the
`description` access raises. -/
theorem cloudsyncWarn_calls (data : List (String × Value)) (jid : Value)
    (qcall : RemoteCall) (msg : String) :
    (cloudsyncWarn data jid qcall msg).trace.calls = [qcall] := by
  unfold cloudsyncWarn
  cases data.lookup "description" <;> rfl

/-- Running `start` on a lookup response failing the validation reduces to the
shared invalid-job branch. -/
theorem clousyncStart_invalid (data : List (String × Value))
    (api : String → Value → Value) (jid jobs : Value)
    (hid : data.lookup "id" = some jid)
    (hq : api "cloudsync.query" (cloudsyncQueryArgs jid) = jobs)
    (hbad : validJobResponse jobs = false) :
    clousyncStart data api =
      cloudsyncInvalid data jid (cloudsyncQueryCall jid) := by
  simp only [clousyncStart, hid, hq]
  unfold validJobResponse at hbad
  rcases h : firstJob jobs with _ | v
  · rfl
  · cases v with
    | vdict d =>
      cases hj : d.lookup "job" with
      | none => simp [hj]
      | some j =>
        rw [h] at hbad
        have hbad2 : (d.lookup "job").isSome = false := hbad
        rw [hj] at hbad2
        simp at hbad2
    | vnone => rfl
    | vstr s => rfl
    | vint n => rfl
    | vbool b => rfl
    | vlist xs => rfl

/-- Running `stop` on a lookup response failing the validation reduces to the
shared invalid-job branch. -/
theorem clousyncStop_invalid (data : List (String × Value))
    (api : String → Value → Value) (jid jobs : Value)
    (hid : data.lookup "id" = some jid)
    (hq : api "cloudsync.query" (cloudsyncQueryArgs jid) = jobs)
    (hbad : validJobResponse jobs = false) :
    clousyncStop data api =
      cloudsyncInvalid data jid (cloudsyncQueryCall jid) := by
  simp only [clousyncStop, hid, hq]
  unfold validJobResponse at hbad
  rcases h : firstJob jobs with _ | v
  · rfl
  · cases v with
    | vdict d =>
      cases hj : d.lookup "job" with
      | none => simp [hj]
      | some j =>
        rw [h] at hbad
        have hbad2 : (d.lookup "job").isSome = false := hbad
        rw [hj] at hbad2
        simp at hbad2
    | vnone => rfl
    | vstr s => rfl
    | vint n => rfl
    | vbool b => rfl
    | vlist xs => rfl

/-- C2: when the `cloudsync.query` response carries no matching job record
or a malformed one (no first element that is a dict with a `"job"` key),
`start` and `stop` behave identically: each logs the same error, raises no
exception, and issues no mutating call (only the single lookup appears in
the trace). -/
theorem cloudsync_missing_malformed_identical (data : List (String × Value))
    (api : String → Value → Value) (jid desc jobs : Value)
    (hid : data.lookup "id" = some jid)
    (hdesc : data.lookup "description" = some desc)
    (hq : api "cloudsync.query" (cloudsyncQueryArgs jid) = jobs)
    (hbad : validJobResponse jobs = false) :
    clousyncStart data api =
      ⟨⟨[cloudsyncQueryCall jid],
        [LogEvent.logError "Clousync job %s (%s) invalid" [desc, jid]]⟩,
       none⟩ ∧
    clousyncStop data api =
      ⟨⟨[cloudsyncQueryCall jid],
        [LogEvent.logError "Clousync job %s (%s) invalid" [desc, jid]]⟩,
       none⟩ := by
  rw [clousyncStart_invalid data api jid jobs hid hq hbad,
    clousyncStop_invalid data api jid jobs hid hq hbad]
  unfold cloudsyncInvalid
  rw [hdesc]
  exact ⟨rfl, rfl⟩

/-- Example API: the `cloudsync.query` lookup matches no job. -/
def exApiNoJobs : String → Value → Value := fun m _ =>
  if m = "cloudsync.query" then Value.vlist [] else Value.vnone

/-- C2 witness: with an empty lookup result, `start` and `stop` both
produce exactly the lookup call and the same error log, raising nothing. -/
theorem cloudsync_missing_malformed_identical_witness :
    clousyncStart exDataCS exApiNoJobs =
      ⟨⟨[cloudsyncQueryCall (Value.vint 1)],
        [LogEvent.logError "Clousync job %s (%s) invalid"
          [Value.vstr "backup job", Value.vint 1]]⟩, none⟩ ∧
    clousyncStop exDataCS exApiNoJobs =
      ⟨⟨[cloudsyncQueryCall (Value.vint 1)],
        [LogEvent.logError "Clousync job %s (%s) invalid"
          [Value.vstr "backup job", Value.vint 1]]⟩, none⟩ :=
  cloudsync_missing_malformed_identical exDataCS exApiNoJobs (Value.vint 1)
    (Value.vstr "backup job") (Value.vlist []) rfl rfl rfl rfl

/-- A response whose first element is not a dict fails the job validation. -/
theorem validJobResponse_false_of_firstIsDict_false (jobs : Value)
    (h : firstIsDict jobs = false) : validJobResponse jobs = false := by
  unfold firstIsDict at h
  unfold validJobResponse
  rcases hf : firstJob jobs with _ | v
  · rfl
  · rw [hf] at h
    cases v with
    | vdict d =>
      have h2 : (true : Bool) = false := h
      simp at h2
    | vnone => rfl
    | vstr s => rfl
    | vint n => rfl
    | vbool b => rfl
    | vlist xs => rfl

/-- C10: for every `cloudsync.query` response that is a non-list value, an
empty list, or a list whose first element is not a dict, `start` and `stop`
raise no exception (given the record holds `id` and `description`): both
route to the log-error-and-return branch, issuing no mutating call. -/
theorem cloudsync_bad_response_no_raise (data : List (String × Value))
    (api : String → Value → Value) (jid desc jobs : Value)
    (hid : data.lookup "id" = some jid)
    (hdesc : data.lookup "description" = some desc)
    (hq : api "cloudsync.query" (cloudsyncQueryArgs jid) = jobs)
    (hbad : firstIsDict jobs = false) :
    clousyncStart data api =
      ⟨⟨[cloudsyncQueryCall jid],
        [LogEvent.logError "Clousync job %s (%s) invalid" [desc, jid]]⟩,
       none⟩ ∧
    clousyncStop data api =
      ⟨⟨[cloudsyncQueryCall jid],
        [LogEvent.logError "Clousync job %s (%s) invalid" [desc, jid]]⟩,
       none⟩ := by
  have hv := validJobResponse_false_of_firstIsDict_false jobs hbad
  rw [clousyncStart_invalid data api jid jobs hid hq hv,
    clousyncStop_invalid data api jid jobs hid hq hv]
  unfold cloudsyncInvalid
  rw [hdesc]
  exact ⟨rfl, rfl⟩

/-- Example API: the lookup yields a non-list (an in-band error mapping). -/
def exApiQueryErrMap : String → Value → Value := fun m _ =>
  if m = "cloudsync.query" then Value.vdict [("error", Value.vstr "EPERM")]
  else Value.vnone

/-- C10 witness: with a dict (non-list) lookup response, both actions only
query, log the invalid-job error, and raise nothing. -/
theorem cloudsync_bad_response_no_raise_witness :
    clousyncStart exDataCS exApiQueryErrMap =
      ⟨⟨[cloudsyncQueryCall (Value.vint 1)],
        [LogEvent.logError "Clousync job %s (%s) invalid"
          [Value.vstr "backup job", Value.vint 1]]⟩, none⟩ ∧
    clousyncStop exDataCS exApiQueryErrMap =
      ⟨⟨[cloudsyncQueryCall (Value.vint 1)],
        [LogEvent.logError "Clousync job %s (%s) invalid"
          [Value.vstr "backup job", Value.vint 1]]⟩, none⟩ :=
  cloudsync_bad_response_no_raise exDataCS exApiQueryErrMap (Value.vint 1)
    (Value.vstr "backup job") (Value.vdict [("error", Value.vstr "EPERM")])
    rfl rfl rfl rfl

/-- C4: when the fresh lookup returns a well-formed job record whose
embedded job state is `WAITING` or `RUNNING`, `stop` issues exactly one
`cloudsync.abort` call with the single-element argument list `[id]`. -/
theorem clousyncStop_abort_when_active (data : List (String × Value))
    (api : String → Value → Value) (jid job_state : Value)
    (d : List (String × Value)) (rest : List Value)
    (hid : data.lookup "id" = some jid)
    (hq : api "cloudsync.query" (cloudsyncQueryArgs jid) =
      Value.vlist (Value.vdict d :: rest))
    (hjob : d.lookup "job" = some job_state)
    (hact : isActiveState (stateOf job_state) = true) :
    clousyncStop data api =
      ⟨⟨[cloudsyncQueryCall jid,
         ⟨"cloudsync.abort", Value.vlist [jid]⟩], []⟩, none⟩ := by
  simp only [clousyncStop, hid, hq, firstJob, hjob, hact, if_true]

/-- Example API: the queried job is `WAITING`. -/
def exApiWaiting : String → Value → Value := fun m _ =>
  if m = "cloudsync.query" then
    Value.vlist [Value.vdict [("job", Value.vdict [("state", Value.vstr "WAITING")])]]
  else Value.vnone

/-- C4 witness: with the job `WAITING`, `stop` issues the query and then
exactly one `cloudsync.abort [1]`. -/
theorem clousyncStop_abort_when_active_witness :
    clousyncStop exDataCS exApiWaiting =
      ⟨⟨[cloudsyncQueryCall (Value.vint 1),
         ⟨"cloudsync.abort", Value.vlist [Value.vint 1]⟩], []⟩, none⟩ :=
  clousyncStop_abort_when_active exDataCS exApiWaiting (Value.vint 1)
    (Value.vdict [("state", Value.vstr "WAITING")])
    [("job", Value.vdict [("state", Value.vstr "WAITING")])] []
    rfl rfl rfl rfl

/-- C5: repeated invocations of `stop`, each against a fresh lookup (one
`api` per invocation) that keeps returning a well-formed job record whose
embedded state is neither `WAITING` nor `RUNNING`, all log the
not-running warning and no-op: no invocation raises and none issues a
`cloudsync.abort` call. -/
theorem clousyncStop_nonactive_repeated_noop (data : List (String × Value))
    (jid desc : Value)
    (hid : data.lookup "id" = some jid)
    (hdesc : data.lookup "description" = some desc)
    (apis : List (String → Value → Value))
    (h : ∀ api ∈ apis, ∃ d rest job_state,
      api "cloudsync.query" (cloudsyncQueryArgs jid) =
        Value.vlist (Value.vdict d :: rest) ∧
      d.lookup "job" = some job_state ∧
      isActiveState (stateOf job_state) = false) :
    ∀ api ∈ apis, clousyncStop data api =
      ⟨⟨[cloudsyncQueryCall jid],
        [LogEvent.logWarning "Clousync job %s (%s) is not running"
          [desc, jid]]⟩, none⟩ := by
  intro api hmem
  obtain ⟨d, rest, job_state, hq, hjob, hstate⟩ := h api hmem
  simp only [clousyncStop, hid, hq, firstJob, hjob, hstate,
    Bool.false_eq_true, if_false, cloudsyncWarn, hdesc]

/-- C5 witness: two successive invocations against lookups that keep
reporting the terminal state `SUCCESS` both warn and issue no abort. -/
theorem clousyncStop_nonactive_repeated_noop_witness :
    clousyncStop exDataCS exApiIdle =
      ⟨⟨[cloudsyncQueryCall (Value.vint 1)],
        [LogEvent.logWarning "Clousync job %s (%s) is not running"
          [Value.vstr "backup job", Value.vint 1]]⟩, none⟩ :=
  clousyncStop_nonactive_repeated_noop exDataCS (Value.vint 1)
    (Value.vstr "backup job") rfl rfl [exApiIdle, exApiIdle]
    (by
      intro api hmem
      rcases List.mem_cons.mp hmem with h1 | hmem1
      · subst h1
        exact ⟨[("job", Value.vdict [("state", Value.vstr "SUCCESS")])], [],
          Value.vdict [("state", Value.vstr "SUCCESS")], rfl, rfl, rfl⟩
      · rcases List.mem_cons.mp hmem1 with h2 | hmem2
        · subst h2
          exact ⟨[("job", Value.vdict [("state", Value.vstr "SUCCESS")])], [],
            Value.vdict [("state", Value.vstr "SUCCESS")], rfl, rfl, rfl⟩
        · exact absurd hmem2 (List.not_mem_nil api))
    exApiIdle (List.mem_cons_self exApiIdle [exApiIdle])

/-- C6: every invocation of `start` or `stop` issues at most two remote
calls: the `cloudsync.query` lookup always comes first, and a mutating call
(`cloudsync.sync` for `start`, `cloudsync.abort` for `stop`) follows only
when the lookup response passed the validation — regardless of the
response's shape and of whether the `description` field exists. -/
theorem cloudsync_call_discipline (data : List (String × Value))
    (api : String → Value → Value) (jid : Value)
    (hid : data.lookup "id" = some jid) :
    ((clousyncStart data api).trace.calls = [cloudsyncQueryCall jid] ∨
      ((clousyncStart data api).trace.calls =
        [cloudsyncQueryCall jid, ⟨"cloudsync.sync", Value.vlist [jid]⟩] ∧
       validJobResponse (api "cloudsync.query" (cloudsyncQueryArgs jid)) =
         true)) ∧
    ((clousyncStop data api).trace.calls = [cloudsyncQueryCall jid] ∨
      ((clousyncStop data api).trace.calls =
        [cloudsyncQueryCall jid, ⟨"cloudsync.abort", Value.vlist [jid]⟩] ∧
       validJobResponse (api "cloudsync.query" (cloudsyncQueryArgs jid)) =
         true)) := by
  constructor
  · rcases hv : validJobResponse (api "cloudsync.query" (cloudsyncQueryArgs jid))
      with _ | _
    · left
      rw [clousyncStart_invalid data api jid _ hid rfl hv]
      exact cloudsyncInvalid_calls data jid (cloudsyncQueryCall jid)
    · unfold validJobResponse at hv
      rcases hf : firstJob (api "cloudsync.query" (cloudsyncQueryArgs jid))
        with _ | v
      · rw [hf] at hv; simp at hv
      · cases v with
        | vdict d =>
          rw [hf] at hv
          have hv2 : (d.lookup "job").isSome = true := hv
          rcases hj : d.lookup "job" with _ | job_state
          · rw [hj] at hv2; simp at hv2
          · simp only [clousyncStart, hid, hf, hj]
            cases hact : isActiveState (stateOf job_state) with
            | true =>
              left
              simp only [hact, if_true]
              exact cloudsyncWarn_calls data jid (cloudsyncQueryCall jid) _
            | false =>
              right
              simp only [hact, Bool.false_eq_true, if_false]
              exact ⟨trivial, trivial⟩
        | vnone => rw [hf] at hv; simp at hv
        | vstr s => rw [hf] at hv; simp at hv
        | vint n => rw [hf] at hv; simp at hv
        | vbool b => rw [hf] at hv; simp at hv
        | vlist xs => rw [hf] at hv; simp at hv
  · rcases hv : validJobResponse (api "cloudsync.query" (cloudsyncQueryArgs jid))
      with _ | _
    · left
      rw [clousyncStop_invalid data api jid _ hid rfl hv]
      exact cloudsyncInvalid_calls data jid (cloudsyncQueryCall jid)
    · unfold validJobResponse at hv
      rcases hf : firstJob (api "cloudsync.query" (cloudsyncQueryArgs jid))
        with _ | v
      · rw [hf] at hv; simp at hv
      · cases v with
        | vdict d =>
          rw [hf] at hv
          have hv2 : (d.lookup "job").isSome = true := hv
          rcases hj : d.lookup "job" with _ | job_state
          · rw [hj] at hv2; simp at hv2
          · simp only [clousyncStop, hid, hf, hj]
            cases hact : isActiveState (stateOf job_state) with
            | true =>
              right
              simp only [hact, if_true]
              exact ⟨trivial, trivial⟩
            | false =>
              left
              simp only [hact, Bool.false_eq_true, if_false]
              exact cloudsyncWarn_calls data jid (cloudsyncQueryCall jid) _
        | vnone => rw [hf] at hv; simp at hv
        | vstr s => rw [hf] at hv; simp at hv
        | vint n => rw [hf] at hv; simp at hv
        | vbool b => rw [hf] at hv; simp at hv
        | vlist xs => rw [hf] at hv; simp at hv

/-- C6 witness: with the `RUNNING`-job API, `start` issues exactly the
lookup (the guard stops it), and `stop` issues the lookup followed by the
one abort call on the validated response. -/
theorem cloudsync_call_discipline_witness :
    ((clousyncStart exDataCS exApiRunning).trace.calls =
        [cloudsyncQueryCall (Value.vint 1)] ∨
      ((clousyncStart exDataCS exApiRunning).trace.calls =
        [cloudsyncQueryCall (Value.vint 1),
         ⟨"cloudsync.sync", Value.vlist [Value.vint 1]⟩] ∧
       validJobResponse (exApiRunning "cloudsync.query"
         (cloudsyncQueryArgs (Value.vint 1))) = true)) ∧
    ((clousyncStop exDataCS exApiRunning).trace.calls =
        [cloudsyncQueryCall (Value.vint 1)] ∨
      ((clousyncStop exDataCS exApiRunning).trace.calls =
        [cloudsyncQueryCall (Value.vint 1),
         ⟨"cloudsync.abort", Value.vlist [Value.vint 1]⟩] ∧
       validJobResponse (exApiRunning "cloudsync.query"
         (cloudsyncQueryArgs (Value.vint 1))) = true)) :=
  cloudsync_call_discipline exDataCS exApiRunning (Value.vint 1) rfl
